import Mathlib

/-! SMTP backend of the bridge: login flow and no-encryption confirmation.

A shallow embedding of `internal/smtp/backend.go`.

* The collaborators that `Login` talks to (`bridger`, `bridgeUser`, `panicHandler`) are Go
  interfaces.  They are embedded as records of functions.  A call on a collaborator either
  returns or panics (`Call`).
* `Login` is embedded together with the ordered list of the effects it performs (`Event`): every
  collaborator call, the `time.Sleep`, and the deferred `HandlePanic`.
* Channels are embedded by their queue state (`Chan`); the channels that exist are the cells of a
  heap `List Chan`, and a channel value is the index of its cell.
* Calls to the logger are not part of the embedding.
-/

namespace smtp

/-! ## Go values -/

/-- A non-nil Go `error` value.  A possibly-nil `error` is an `Option error`. -/
structure error where
  msg : String
deriving DecidableEq, Repr

/-- The value carried by a panic. -/
abbrev PanicValue := String

/-- Outcome of a call on a collaborator: it returns a value, or it panics. -/
inductive Call (α : Type) where
  | ret (a : α)
  | panic (v : PanicValue)

/-- How a function invocation ends, as seen by its caller. -/
inductive Completion (α : Type) where
  /-- The function returned `a`. -/
  | returned (a : α)
  /-- The function is left by a panic carrying `v`. -/
  | panicked (v : PanicValue)
  /-- The process exited with `code`; the function never returns. -/
  | exited (code : Nat)

/-- Completion of an expression that consists of one collaborator call. -/
def Call.toCompletion {α : Type} : Call α → Completion α
  | .ret a => .returned a
  | .panic v => .panicked v

namespace time

/-- Go `time.Nanosecond`, the unit of `time.Duration`. -/
def Nanosecond : Nat := 1

/-- Go `time.Second` in nanoseconds. -/
def Second : Nat := 1000000000 * Nanosecond

end time

/-! ## Collaborators -/

/-- What a deferred `HandlePanic()` does while a panic is in flight. -/
inductive HookAction where
  /-- The hook calls `recover()` and returns: the panicking sequence stops. -/
  | recover
  /-- The hook returns without recovering: the panic continues to the caller. -/
  | propagate
  /-- The hook ends the process with the given exit code. -/
  | exit (code : Nat)
deriving DecidableEq, Repr

/-- Interface `panicHandler` (backend.go:31-33).  The one method takes no argument and returns
nothing; what an implementation does with a panic in flight is the parameter `HandlePanic`.
With no panic in flight `recover()` yields nil and the hook returns. -/
structure panicHandler where
  HandlePanic : PanicValue → HookAction

/-- The methods of the account handle (interface `bridgeUser`) that `Login` uses.  Go's result
pair `(string, error)` is an `Except`: the string is read only when the error is nil.  A nil
handle is a handle all of whose methods panic. -/
structure bridgeUser where
  CheckBridgeLogin : String → Call (Option error)
  GetAddressID : String → Call (Except error String)
  IsCombinedAddressMode : Call Bool

/-- Interface `bridger`, the account resolver.  The result pair `(bridgeUser, error)` is an
`Except`: the handle is read only when the error is nil. -/
structure bridger where
  GetUser : String → Call (Except error bridgeUser)

/-- Handle of a `listener.Listener`. -/
abbrev Listener := Nat

/-- The read access of `*config.Preferences` that the backend uses. -/
structure Preferences where
  GetBool : String → Bool

/-- A channel value: the index of the channel's cell in the heap of channels. -/
abbrev ChanRef := Nat

/-- Struct `smtpBackend` (backend.go:35-42).  `shouldSendNoEncChannels` is the Go map
`map[string]chan bool` as an association list with unique keys.  The field `sendRecorder` is not
embedded: its type is declared elsewhere and neither `Login` nor `ConfirmNoEncryption`
touches it. -/
structure smtpBackend where
  panicHandler : panicHandler
  eventListener : Listener
  preferences : Preferences
  bridge : bridger
  shouldSendNoEncChannels : List (String × ChanRef)

/-- Function `newSMTPBackend` (backend.go:54-68): the handshake table starts empty. -/
def newSMTPBackend (ph : panicHandler) (eventListener : Listener) (preferences : Preferences)
    (bridge : bridger) : smtpBackend :=
  { panicHandler := ph
    eventListener := eventListener
    preferences := preferences
    bridge := bridge
    shouldSendNoEncChannels := [] }

/-- The session object handed to the protocol library, with the five values `Login` passes to
its constructor. -/
structure smtpUser where
  panicHandler : panicHandler
  eventListener : Listener
  backend : smtpBackend
  user : bridgeUser
  addressID : String

/-- Modelled from the spec: the session constructor `newSMTPUser`, which backend.go calls and
another file defines.  "Output: a new Session bound to (panic hook, event sink, Session Factory
reference, authenticated account, address identifier)." -/
def newSMTPUser (ph : panicHandler) (eventListener : Listener) (sb : smtpBackend)
    (user : bridgeUser) (addressID : String) : Call (Option smtpUser × Option error) :=
  .ret (some { panicHandler := ph, eventListener := eventListener, backend := sb,
               user := user, addressID := addressID }, none)

/-- The two functions `Login` calls that are defined outside backend.go: `strings.ToLower` of
the Go standard library and the session constructor `newSMTPUser`. -/
structure Deps where
  ToLower : String → String
  newSMTPUser : panicHandler → Listener → smtpBackend → bridgeUser → String →
    Call (Option smtpUser × Option error)

/-! ## Login -/

/-- The effects of one `Login` call, in the order they happen. -/
inductive Event where
  | GetUser (address : String)
  | CheckBridgeLogin (password : String)
  | Sleep (d : Nat)
  | GetAddressID (address : String)
  | IsCombinedAddressMode
  | newSMTPUser (addressID : String)
  | HandlePanic (inFlight : Option PanicValue)
deriving DecidableEq, Repr

/-- One run of `Login`: the effects performed and how the call ended.  A returned pair is Go's
`(goSMTPBackend.User, error)`; `none` is nil. -/
structure LoginRun where
  trace : List Event
  result : Completion (Option smtpUser × Option error)

/-- Lines 74-98 of backend.go: the body of `Login`, before the deferred call runs. -/
def Login.body (deps : Deps) (sb : smtpBackend) (username password : String) : LoginRun :=
  let username := deps.ToLower username
  match sb.bridge.GetUser username with
  | .panic v => ⟨[.GetUser username], .panicked v⟩
  | .ret (.error err) => ⟨[.GetUser username], .returned (none, some err)⟩
  | .ret (.ok user) =>
    match user.CheckBridgeLogin password with
    | .panic v => ⟨[.GetUser username, .CheckBridgeLogin password], .panicked v⟩
    | .ret (some err) =>
      ⟨[.GetUser username, .CheckBridgeLogin password, .Sleep (10 * time.Second)],
        .returned (none, some err)⟩
    | .ret none =>
      match user.GetAddressID username with
      | .panic v =>
        ⟨[.GetUser username, .CheckBridgeLogin password, .GetAddressID username], .panicked v⟩
      | .ret (.error err) =>
        ⟨[.GetUser username, .CheckBridgeLogin password, .GetAddressID username],
          .returned (none, some err)⟩
      | .ret (.ok addressID) =>
        match user.IsCombinedAddressMode with
        | .panic v =>
          ⟨[.GetUser username, .CheckBridgeLogin password, .GetAddressID username,
            .IsCombinedAddressMode], .panicked v⟩
        | .ret combined =>
          let addressID := if combined then "" else addressID
          ⟨[.GetUser username, .CheckBridgeLogin password, .GetAddressID username,
            .IsCombinedAddressMode, .newSMTPUser addressID],
            (deps.newSMTPUser sb.panicHandler sb.eventListener sb user addressID).toCompletion⟩

/-- Line 73 of backend.go, `defer sb.panicHandler.HandlePanic()`: the hook runs when the body is
left.  After an ordinary return the results stand.  While panicking, a hook that recovers makes
`Login` return the zero values of its unnamed results, `(nil, nil)`. -/
def Login.deferred (sb : smtpBackend) (run : LoginRun) : LoginRun :=
  match run.result with
  | .returned r => ⟨run.trace ++ [.HandlePanic none], .returned r⟩
  | .exited code => ⟨run.trace, .exited code⟩
  | .panicked v =>
    match sb.panicHandler.HandlePanic v with
    | .recover => ⟨run.trace ++ [.HandlePanic (some v)], .returned (none, none)⟩
    | .propagate => ⟨run.trace ++ [.HandlePanic (some v)], .panicked v⟩
    | .exit code => ⟨run.trace ++ [.HandlePanic (some v)], .exited code⟩

/-- Method `Login` (backend.go:71-99). -/
def Login (deps : Deps) (sb : smtpBackend) (username password : String) : LoginRun :=
  Login.deferred sb (Login.body deps sb username password)

/-- Total time spent in `time.Sleep` along a trace, in nanoseconds. -/
def slept : List Event → Nat
  | [] => 0
  | .Sleep d :: rest => d + slept rest
  | _ :: rest => slept rest

/-- Method `shouldReportOutgoingNoEnc` (backend.go:101-103); the key constant
`preferences.ReportOutgoingNoEncKey` is declared elsewhere and is a parameter. -/
def shouldReportOutgoingNoEnc (ReportOutgoingNoEncKey : String) (sb : smtpBackend) : Bool :=
  sb.preferences.GetBool ReportOutgoingNoEncKey

/-! ## Channels and the confirmation handshake -/

/-- State of one `chan bool`.  `buf` holds the buffered values, oldest first; `sendq` the values
of the senders parked on the channel; `recvq` counts the parked receivers; `handed` lists the
values that sends passed straight to a parked receiver. -/
structure Chan where
  cap : Nat
  buf : List Bool
  sendq : List Bool
  recvq : Nat
  handed : List Bool
  closed : Bool
deriving DecidableEq, Repr

/-- Go `make(chan bool, cap)`. -/
def Chan.make (cap : Nat) : Chan :=
  { cap := cap, buf := [], sendq := [], recvq := 0, handed := [], closed := false }

/-- What a send statement does to its channel. -/
inductive SendResult where
  /-- The send completed and the statement after it runs. -/
  | done (c : Chan)
  /-- The sending goroutine is parked on the channel. -/
  | parked (c : Chan)
  /-- The send panics. -/
  | panic (v : PanicValue)
deriving DecidableEq, Repr

/-- Go `c <- v` on a non-nil channel: a closed channel panics; a parked receiver is handed the
value; else the value goes to free buffer space; else the sender parks. -/
def Chan.send (c : Chan) (v : Bool) : SendResult :=
  if c.closed then .panic "send on closed channel"
  else if 0 < c.recvq then .done { c with recvq := c.recvq - 1, handed := c.handed ++ [v] }
  else if c.buf.length < c.cap then .done { c with buf := c.buf ++ [v] }
  else .parked { c with sendq := c.sendq ++ [v] }

/-- Go `<-c` on a non-nil channel: the value received (`none` when the receiver parks) and the
channel afterwards.  A closed and drained channel yields the zero value `false`. -/
def Chan.recv (c : Chan) : Option Bool × Chan :=
  match c.buf, c.sendq with
  | b :: bs, s :: ss => (some b, { c with buf := bs ++ [s], sendq := ss })
  | b :: bs, [] => (some b, { c with buf := bs })
  | [], s :: ss => (some s, { c with sendq := ss })
  | [], [] => if c.closed then (some false, c) else (none, { c with recvq := c.recvq + 1 })

/-- How a call of `ConfirmNoEncryption` stands once it can make no further step on its own. -/
inductive Status where
  | returned
  /-- The calling goroutine is parked inside the send statement. -/
  | blocked
  | panicked (v : PanicValue)
deriving DecidableEq, Repr

/-- One run of `ConfirmNoEncryption`: the backend and the heap of channels afterwards, the send
statements executed (channel and value), and how the call stands. -/
structure ConfirmRun where
  sb : smtpBackend
  chans : List Chan
  sends : List (ChanRef × Bool)
  status : Status

/-- Method `ConfirmNoEncryption` (backend.go:105-109).  A channel value without a cell in the
heap is the nil channel, on which a send parks for ever. -/
def ConfirmNoEncryption (sb : smtpBackend) (chans : List Chan) (messageID : String)
    (shouldSend : Bool) : ConfirmRun :=
  match sb.shouldSendNoEncChannels.lookup messageID with
  | some ch =>
    match chans[ch]? with
    | none => ⟨sb, chans, [(ch, shouldSend)], .blocked⟩
    | some c =>
      match c.send shouldSend with
      | .done c1 => ⟨sb, chans.set ch c1, [(ch, shouldSend)], .returned⟩
      | .parked c1 => ⟨sb, chans.set ch c1, [(ch, shouldSend)], .blocked⟩
      | .panic v => ⟨sb, chans, [], .panicked v⟩
  | none => ⟨sb, chans, [], .returned⟩

/-- Go `delete(sb.shouldSendNoEncChannels, messageID)`. -/
def deleteEntry (sb : smtpBackend) (messageID : String) : smtpBackend :=
  { sb with shouldSendNoEncChannels :=
      sb.shouldSendNoEncChannels.filter (fun e => e.1 != messageID) }

/-- Modelled from the spec: the registration step `RegisterPending`, which lives outside
backend.go.  It "creates a fresh single-slot boolean channel, stores it under messageID, and
returns a means to block on it". -/
def RegisterPending (sb : smtpBackend) (chans : List Chan) (messageID : String) :
    smtpBackend × List Chan × ChanRef :=
  ({ sb with shouldSendNoEncChannels :=
      (messageID, chans.length) ::
        sb.shouldSendNoEncChannels.filter (fun e => e.1 != messageID) },
    chans ++ [Chan.make 1], chans.length)

/-- Distinct message identifiers hold distinct channels. -/
def DistinctChannels (sb : smtpBackend) : Prop :=
  ∀ id1 id2 ch, sb.shouldSendNoEncChannels.lookup id1 = some ch →
    sb.shouldSendNoEncChannels.lookup id2 = some ch → id1 = id2

/-- Every channel stored in the table has a cell in the heap: no entry holds the nil channel. -/
def TableInHeap (sb : smtpBackend) (chans : List Chan) : Prop :=
  ∀ id ch, sb.shouldSendNoEncChannels.lookup id = some ch → ch < chans.length

/-- The entry under `messageID` is pending on channel `ch`: the channel is open and no decision
has been sent on it yet. -/
def Pending (sb : smtpBackend) (chans : List Chan) (messageID : String) (ch : ChanRef) : Prop :=
  sb.shouldSendNoEncChannels.lookup messageID = some ch ∧
    ∃ c, chans[ch]? = some c ∧ c.closed = false ∧ c.buf = [] ∧ c.sendq = []

/-- The four steps of the login flow among the effects: account lookup, credential check,
address resolution and session construction. -/
def Event.isStep : Event → Bool
  | .GetUser _ => true
  | .CheckBridgeLogin _ => true
  | .GetAddressID _ => true
  | .newSMTPUser _ => true
  | _ => false

/-- The effect is an account lookup. -/
def Event.isLookup : Event → Bool
  | .GetUser _ => true
  | _ => false

/-- The effect is a run of the panic hook. -/
def Event.isHook : Event → Bool
  | .HandlePanic _ => true
  | _ => false

/-- All three fallible steps succeed for `username` and `password`, on account `user` with
resolved address id `a`, and the addressing-mode query (which has no error result) returns
`combined`. -/
def AllStepsSucceed (deps : Deps) (sb : smtpBackend) (username password : String)
    (user : bridgeUser) (a : String) (combined : Bool) : Prop :=
  sb.bridge.GetUser (deps.ToLower username) = .ret (.ok user) ∧
    user.CheckBridgeLogin password = .ret none ∧
    user.GetAddressID (deps.ToLower username) = .ret (.ok a) ∧
    user.IsCombinedAddressMode = .ret combined

/-- Some collaborator step of `Login username password` panics with value `v`: the lookup, or
on the account found the credential check, or after it the address resolution, or after it the
mode query, or after it the session constructor. -/
def StepPanics (deps : Deps) (sb : smtpBackend) (username password : String)
    (v : PanicValue) : Prop :=
  sb.bridge.GetUser (deps.ToLower username) = .panic v ∨
  ∃ user, sb.bridge.GetUser (deps.ToLower username) = .ret (.ok user) ∧
    (user.CheckBridgeLogin password = .panic v ∨
      (user.CheckBridgeLogin password = .ret none ∧
        (user.GetAddressID (deps.ToLower username) = .panic v ∨
          ∃ a, user.GetAddressID (deps.ToLower username) = .ret (.ok a) ∧
            (user.IsCombinedAddressMode = .panic v ∨
              ∃ combined, user.IsCombinedAddressMode = .ret combined ∧
                deps.newSMTPUser sb.panicHandler sb.eventListener sb user
                  (if combined then "" else a) = .panic v))))

/-! ## Sample inputs -/

/-- A panic hook that recovers every panic. -/
def recoveringHandler : panicHandler := ⟨fun _ => .recover⟩

/-- ASCII lower-casing, a sample instance of `strings.ToLower`. -/
def asciiLower (s : String) : String := ⟨s.data.map Char.toLower⟩

/-- Sample dependencies: ASCII lower-casing and the session constructor of the spec. -/
def sampleDeps : Deps := ⟨asciiLower, newSMTPUser⟩

/-- A sample account: bridge password "pw", address ids "id:<address>", in the given mode. -/
def sampleUser (combined : Bool) : bridgeUser :=
  { CheckBridgeLogin := fun p => if p = "pw" then .ret none else .ret (some ⟨"invalid credentials"⟩)
    GetAddressID := fun a => .ret (.ok ("id:" ++ a))
    IsCombinedAddressMode := .ret combined }

/-- A sample resolver that knows the one account "foo@x". -/
def sampleBridge (combined : Bool) : bridger :=
  ⟨fun a => if a = "foo@x" then .ret (.ok (sampleUser combined)) else .ret (.error ⟨"unknown account"⟩)⟩

/-- A sample backend around `sampleBridge`. -/
def sampleBackend (combined : Bool) : smtpBackend :=
  newSMTPBackend recoveringHandler 0 ⟨fun _ => true⟩ (sampleBridge combined)

/-- A sample backend whose account lookup panics. -/
def faultyBackend : smtpBackend :=
  newSMTPBackend recoveringHandler 0 ⟨fun _ => true⟩ ⟨fun _ => .panic "boom"⟩

/-- The sample backend with message "m1" registered on channel 0. -/
def pendingBackend : smtpBackend :=
  { sampleBackend false with shouldSendNoEncChannels := [("m1", 0)] }

/-- The heap of channels for `pendingBackend`: one fresh single-slot channel. -/
def pendingChans : List Chan := [Chan.make 1]

/-- The sample backend with "m1" registered on channel 0 and "m2" on channel 1. -/
def twoPendingBackend : smtpBackend :=
  { sampleBackend false with shouldSendNoEncChannels := [("m2", 1), ("m1", 0)] }

/-- The heap of channels for `twoPendingBackend`: two fresh single-slot channels. -/
def twoPendingChans : List Chan := [Chan.make 1, Chan.make 1]

/-- The heap of channels for `pendingBackend` once the decision `true` for "m1" has been sent
and not yet received: channel 0 holds `true` in its one slot. -/
def decidedChans : List Chan :=
  [{ cap := 1, buf := [true], sendq := [], recvq := 0, handed := [], closed := false }]

/-- The sample backend with one channel, channel 0, stored under both "m1" and "m2". -/
def aliasedBackend : smtpBackend :=
  { sampleBackend false with shouldSendNoEncChannels := [("m2", 0), ("m1", 0)] }

/-! ## Login: the paths through the body -/

theorem Login_of_lookup_error (deps : Deps) (sb : smtpBackend) (u p : String) (err : error)
    (hlookup : sb.bridge.GetUser (deps.ToLower u) = .ret (.error err)) :
    Login deps sb u p =
      ⟨[.GetUser (deps.ToLower u), .HandlePanic none], .returned (none, some err)⟩ := by
  simp [Login, Login.body, Login.deferred, hlookup]

theorem Login_of_check_error (deps : Deps) (sb : smtpBackend) (u p : String) (user : bridgeUser)
    (err : error) (hlookup : sb.bridge.GetUser (deps.ToLower u) = .ret (.ok user))
    (hcheck : user.CheckBridgeLogin p = .ret (some err)) :
    Login deps sb u p =
      ⟨[.GetUser (deps.ToLower u), .CheckBridgeLogin p, .Sleep (10 * time.Second),
        .HandlePanic none], .returned (none, some err)⟩ := by
  simp [Login, Login.body, Login.deferred, hlookup, hcheck]

theorem Login_of_resolve_error (deps : Deps) (sb : smtpBackend) (u p : String)
    (user : bridgeUser) (err : error)
    (hlookup : sb.bridge.GetUser (deps.ToLower u) = .ret (.ok user))
    (hcheck : user.CheckBridgeLogin p = .ret none)
    (hresolve : user.GetAddressID (deps.ToLower u) = .ret (.error err)) :
    Login deps sb u p =
      ⟨[.GetUser (deps.ToLower u), .CheckBridgeLogin p, .GetAddressID (deps.ToLower u),
        .HandlePanic none], .returned (none, some err)⟩ := by
  simp [Login, Login.body, Login.deferred, hlookup, hcheck, hresolve]

theorem Login_of_all_steps (deps : Deps) (sb : smtpBackend) (u p : String)
    (user : bridgeUser) (a : String) (combined : Bool)
    (h : AllStepsSucceed deps sb u p user a combined) :
    Login deps sb u p =
      Login.deferred sb
        ⟨[.GetUser (deps.ToLower u), .CheckBridgeLogin p, .GetAddressID (deps.ToLower u),
          .IsCombinedAddressMode, .newSMTPUser (if combined then "" else a)],
          (deps.newSMTPUser sb.panicHandler sb.eventListener sb user
            (if combined then "" else a)).toCompletion⟩ := by
  obtain ⟨h1, h2, h3, h4⟩ := h
  simp [Login, Login.body, h1, h2, h3, h4]

theorem Login_trace_cases (deps : Deps) (sb : smtpBackend) (u p : String) :
    ∃ w, (Login deps sb u p).trace = [.GetUser (deps.ToLower u), .HandlePanic w] ∨
      (Login deps sb u p).trace = [.GetUser (deps.ToLower u), .CheckBridgeLogin p,
        .HandlePanic w] ∨
      (Login deps sb u p).trace = [.GetUser (deps.ToLower u), .CheckBridgeLogin p,
        .Sleep (10 * time.Second), .HandlePanic w] ∨
      (Login deps sb u p).trace = [.GetUser (deps.ToLower u), .CheckBridgeLogin p,
        .GetAddressID (deps.ToLower u), .HandlePanic w] ∨
      (Login deps sb u p).trace = [.GetUser (deps.ToLower u), .CheckBridgeLogin p,
        .GetAddressID (deps.ToLower u), .IsCombinedAddressMode, .HandlePanic w] ∨
      ∃ a, (Login deps sb u p).trace = [.GetUser (deps.ToLower u), .CheckBridgeLogin p,
        .GetAddressID (deps.ToLower u), .IsCombinedAddressMode, .newSMTPUser a,
        .HandlePanic w] := by
  cases h1 : sb.bridge.GetUser (deps.ToLower u) with
  | panic v =>
    cases hh : sb.panicHandler.HandlePanic v <;>
      exact ⟨some v, Or.inl (by simp [Login, Login.body, Login.deferred, *])⟩
  | ret r1 =>
    cases r1 with
    | error e => exact ⟨none, Or.inl (by simp [Login, Login.body, Login.deferred, *])⟩
    | ok user =>
      cases h2 : user.CheckBridgeLogin p with
      | panic v =>
        cases hh : sb.panicHandler.HandlePanic v <;>
          exact ⟨some v, Or.inr (Or.inl (by simp [Login, Login.body, Login.deferred, *]))⟩
      | ret r2 =>
        cases r2 with
        | some e => exact ⟨none, Or.inr (Or.inr (Or.inl (by simp [Login, Login.body, Login.deferred, *])))⟩
        | none =>
          cases h3 : user.GetAddressID (deps.ToLower u) with
          | panic v =>
            cases hh : sb.panicHandler.HandlePanic v <;>
              exact ⟨some v, Or.inr (Or.inr (Or.inr (Or.inl (by simp [Login, Login.body, Login.deferred, *]))))⟩
          | ret r3 =>
            cases r3 with
            | error e =>
              exact ⟨none, Or.inr (Or.inr (Or.inr (Or.inl (by simp [Login, Login.body, Login.deferred, *]))))⟩
            | ok a =>
              cases h4 : user.IsCombinedAddressMode with
              | panic v =>
                cases hh : sb.panicHandler.HandlePanic v <;>
                  exact ⟨some v, Or.inr (Or.inr (Or.inr (Or.inr (Or.inl
                    (by simp [Login, Login.body, Login.deferred, *])))))⟩
              | ret c =>
                cases h5 : deps.newSMTPUser sb.panicHandler sb.eventListener sb user
                    (if c then "" else a) with
                | ret r =>
                  exact ⟨none, Or.inr (Or.inr (Or.inr (Or.inr (Or.inr
                    ⟨if c then "" else a, by simp [Login, Login.body, Login.deferred, Call.toCompletion, *]⟩))))⟩
                | panic v =>
                  cases hh : sb.panicHandler.HandlePanic v <;>
                    exact ⟨some v, Or.inr (Or.inr (Or.inr (Or.inr (Or.inr
                      ⟨if c then "" else a, by simp [Login, Login.body, Login.deferred, Call.toCompletion, *]⟩))))⟩

/-- C1: `Login(u, p)` runs exactly as `Login(toLower(u), p)` does (same effects, same returned
session and error) whenever lower-casing the lower-cased name changes nothing, as is the case
for `strings.ToLower`; two usernames with the same lower-casing give the same run; and in every
run `GetUser` and `GetAddressID` are queried with the lower-cased username only. -/
theorem Login_username_case_folded (deps : Deps) (sb : smtpBackend) (u p : String)
    (hfold : deps.ToLower (deps.ToLower u) = deps.ToLower u) :
    Login deps sb u p = Login deps sb (deps.ToLower u) p ∧
      (∀ u2, deps.ToLower u2 = deps.ToLower u → Login deps sb u2 p = Login deps sb u p) ∧
      (∀ x, Event.GetUser x ∈ (Login deps sb u p).trace → x = deps.ToLower u) ∧
      (∀ x, Event.GetAddressID x ∈ (Login deps sb u p).trace → x = deps.ToLower u) := by
  refine ⟨by simp only [Login, Login.body, hfold],
    fun u2 h2 => by simp only [Login, Login.body, h2], ?_, ?_⟩
  · intro x hx
    obtain ⟨w, h | h | h | h | h | ⟨a, h⟩⟩ := Login_trace_cases deps sb u p <;>
      (rw [h] at hx; simp at hx; try exact hx)
  · intro x hx
    obtain ⟨w, h | h | h | h | h | ⟨a, h⟩⟩ := Login_trace_cases deps sb u p <;>
      (rw [h] at hx; simp at hx; try exact hx)

/-- Witness for C1: the sample backend, username "Foo@X". -/
theorem Login_username_case_folded_witness :
    Login sampleDeps (sampleBackend true) "Foo@X" "pw" =
        Login sampleDeps (sampleBackend true) (sampleDeps.ToLower "Foo@X") "pw" ∧
      (∀ u2, sampleDeps.ToLower u2 = sampleDeps.ToLower "Foo@X" →
        Login sampleDeps (sampleBackend true) u2 "pw" =
          Login sampleDeps (sampleBackend true) "Foo@X" "pw") ∧
      (∀ x, Event.GetUser x ∈ (Login sampleDeps (sampleBackend true) "Foo@X" "pw").trace →
        x = sampleDeps.ToLower "Foo@X") ∧
      (∀ x, Event.GetAddressID x ∈ (Login sampleDeps (sampleBackend true) "Foo@X" "pw").trace →
        x = sampleDeps.ToLower "Foo@X") :=
  Login_username_case_folded sampleDeps (sampleBackend true) "Foo@X" "pw" (by decide)

/-- C2: when account lookup, credential check and address resolution all succeed with resolved
address id `a`, the session constructor is called exactly with the address id "" if the account
is in combined-address mode and with `a` if it is in split-address mode; `Login` returns what
the constructor returns, and with the constructor of the spec that is a session bound to this
account and this address id, with a nil error. -/
theorem Login_binds_address_by_mode (deps : Deps) (sb : smtpBackend) (u p : String)
    (user : bridgeUser) (a : String) (combined : Bool)
    (h : AllStepsSucceed deps sb u p user a combined) :
    (∀ x, Event.newSMTPUser x ∈ (Login deps sb u p).trace ↔ x = if combined then "" else a) ∧
      (∀ r, deps.newSMTPUser sb.panicHandler sb.eventListener sb user
          (if combined then "" else a) = .ret r → (Login deps sb u p).result = .returned r) ∧
      (deps.newSMTPUser = newSMTPUser →
        ∃ s, (Login deps sb u p).result = .returned (some s, none) ∧ s.user = user ∧
          s.addressID = if combined then "" else a) := by
  rw [Login_of_all_steps deps sb u p user a combined h]
  refine ⟨?_, ?_, ?_⟩
  · intro x
    cases h5 : deps.newSMTPUser sb.panicHandler sb.eventListener sb user
        (if combined then "" else a) with
    | ret r => simp [Login.deferred, Call.toCompletion]
    | panic v =>
      cases hh : sb.panicHandler.HandlePanic v <;> simp [Login.deferred, Call.toCompletion, hh]
  · intro r hr
    simp [Login.deferred, Call.toCompletion, hr]
  · intro hd
    refine ⟨⟨sb.panicHandler, sb.eventListener, sb, user, if combined then "" else a⟩, ?_, rfl,
      rfl⟩
    simp [Login.deferred, Call.toCompletion, hd, newSMTPUser]

/-- Witness for C2: the sample account in combined mode. -/
theorem Login_binds_address_by_mode_witness :
    (∀ x, Event.newSMTPUser x ∈ (Login sampleDeps (sampleBackend true) "Foo@X" "pw").trace ↔
        x = if true then "" else "id:foo@x") ∧
      (∀ r, sampleDeps.newSMTPUser (sampleBackend true).panicHandler
          (sampleBackend true).eventListener (sampleBackend true) (sampleUser true)
          (if true then "" else "id:foo@x") = .ret r →
        (Login sampleDeps (sampleBackend true) "Foo@X" "pw").result = .returned r) ∧
      (sampleDeps.newSMTPUser = newSMTPUser →
        ∃ s, (Login sampleDeps (sampleBackend true) "Foo@X" "pw").result =
            .returned (some s, none) ∧ s.user = sampleUser true ∧
          s.addressID = if true then "" else "id:foo@x") :=
  Login_binds_address_by_mode sampleDeps (sampleBackend true) "Foo@X" "pw" (sampleUser true)
    "id:foo@x" true ⟨rfl, rfl, rfl, rfl⟩

/-- C3: when the credential check on the resolved account fails with `err`, `Login` returns
no session and `err`, and between the failed check and the return it sleeps for
`10 * time.Second`: the trace is lookup, check, sleep, deferred hook, and the time slept is
at least 10 000 000 000 ns. -/
theorem Login_bad_credentials_delayed (deps : Deps) (sb : smtpBackend) (u p : String)
    (user : bridgeUser) (err : error)
    (hlookup : sb.bridge.GetUser (deps.ToLower u) = .ret (.ok user))
    (hcheck : user.CheckBridgeLogin p = .ret (some err)) :
    (Login deps sb u p).result = .returned (none, some err) ∧
      (Login deps sb u p).trace =
        [.GetUser (deps.ToLower u), .CheckBridgeLogin p, .Sleep (10 * time.Second),
          .HandlePanic none] ∧
      10 * 1000000000 ≤ slept (Login deps sb u p).trace := by
  rw [Login_of_check_error deps sb u p user err hlookup hcheck]
  refine ⟨rfl, rfl, ?_⟩
  simp [slept, time.Second, time.Nanosecond]

/-- Witness for C3: the sample account with a wrong password. -/
theorem Login_bad_credentials_delayed_witness :
    (Login sampleDeps (sampleBackend false) "Foo@X" "guess").result =
        .returned (none, some ⟨"invalid credentials"⟩) ∧
      (Login sampleDeps (sampleBackend false) "Foo@X" "guess").trace =
        [.GetUser (sampleDeps.ToLower "Foo@X"), .CheckBridgeLogin "guess",
          .Sleep (10 * time.Second), .HandlePanic none] ∧
      10 * 1000000000 ≤ slept (Login sampleDeps (sampleBackend false) "Foo@X" "guess").trace :=
  Login_bad_credentials_delayed sampleDeps (sampleBackend false) "Foo@X" "guess"
    (sampleUser false) ⟨"invalid credentials"⟩ rfl rfl

/-- C4: when the account lookup for the lower-cased username fails with `err`, `Login` returns
no session and `err`; its only effects are that one lookup and the deferred hook, so the lookup
runs exactly once, nothing is slept, and neither the credential check nor the address
resolution is attempted. -/
theorem Login_unknown_account_immediate (deps : Deps) (sb : smtpBackend) (u p : String)
    (err : error) (hlookup : sb.bridge.GetUser (deps.ToLower u) = .ret (.error err)) :
    (Login deps sb u p).result = .returned (none, some err) ∧
      (Login deps sb u p).trace = [.GetUser (deps.ToLower u), .HandlePanic none] ∧
      (Login deps sb u p).trace.countP Event.isLookup = 1 ∧
      slept (Login deps sb u p).trace = 0 ∧
      (∀ d, Event.Sleep d ∉ (Login deps sb u p).trace) ∧
      (∀ x, Event.CheckBridgeLogin x ∉ (Login deps sb u p).trace) ∧
      (∀ x, Event.GetAddressID x ∉ (Login deps sb u p).trace) := by
  rw [Login_of_lookup_error deps sb u p err hlookup]
  simp [slept, Event.isLookup]

/-- Witness for C4: an address the sample resolver does not know. -/
theorem Login_unknown_account_immediate_witness :
    (Login sampleDeps (sampleBackend false) "Bar@X" "pw").result =
        .returned (none, some ⟨"unknown account"⟩) ∧
      (Login sampleDeps (sampleBackend false) "Bar@X" "pw").trace =
        [.GetUser (sampleDeps.ToLower "Bar@X"), .HandlePanic none] ∧
      (Login sampleDeps (sampleBackend false) "Bar@X" "pw").trace.countP Event.isLookup = 1 ∧
      slept (Login sampleDeps (sampleBackend false) "Bar@X" "pw").trace = 0 ∧
      (∀ d, Event.Sleep d ∉ (Login sampleDeps (sampleBackend false) "Bar@X" "pw").trace) ∧
      (∀ x, Event.CheckBridgeLogin x ∉
        (Login sampleDeps (sampleBackend false) "Bar@X" "pw").trace) ∧
      (∀ x, Event.GetAddressID x ∉ (Login sampleDeps (sampleBackend false) "Bar@X" "pw").trace) :=
  Login_unknown_account_immediate sampleDeps (sampleBackend false) "Bar@X" "pw"
    ⟨"unknown account"⟩ rfl

theorem Login_session_inv (deps : Deps) (sb : smtpBackend) (u p : String)
    (h : (∃ x, Event.newSMTPUser x ∈ (Login deps sb u p).trace) ∨
      ∃ s e, (Login deps sb u p).result = .returned (some s, e)) :
    ∃ user a combined, AllStepsSucceed deps sb u p user a combined := by
  cases h1 : sb.bridge.GetUser (deps.ToLower u) with
  | panic v =>
    cases hh : sb.panicHandler.HandlePanic v <;>
      simp [Login, Login.body, Login.deferred, h1, hh] at h
  | ret r1 =>
    cases r1 with
    | error e => simp [Login, Login.body, Login.deferred, h1] at h
    | ok user =>
      cases h2 : user.CheckBridgeLogin p with
      | panic v =>
        cases hh : sb.panicHandler.HandlePanic v <;>
          simp [Login, Login.body, Login.deferred, h1, h2, hh] at h
      | ret r2 =>
        cases r2 with
        | some e => simp [Login, Login.body, Login.deferred, h1, h2] at h
        | none =>
          cases h3 : user.GetAddressID (deps.ToLower u) with
          | panic v =>
            cases hh : sb.panicHandler.HandlePanic v <;>
              simp [Login, Login.body, Login.deferred, h1, h2, h3, hh] at h
          | ret r3 =>
            cases r3 with
            | error e => simp [Login, Login.body, Login.deferred, h1, h2, h3] at h
            | ok a =>
              cases h4 : user.IsCombinedAddressMode with
              | panic v =>
                cases hh : sb.panicHandler.HandlePanic v <;>
                  simp [Login, Login.body, Login.deferred, h1, h2, h3, h4, hh] at h
              | ret c => exact ⟨user, a, c, h1, h2, h3, h4⟩

/-- C5: the steps of `Login` run in the order lookup, credential check, address resolution,
session construction, each at most once, and the run stops at the first step that fails.  The
session constructor is reached exactly when lookup, check and resolution all succeed (and the
mode query, which has no error result, returns); a session in the result can only come from it,
and with the constructor of the spec `Login` returns a session exactly in that case.  When a
step fails, `Login` returns no session and that step's error, and no later step has run. -/
theorem Login_stops_at_first_failure (deps : Deps) (sb : smtpBackend) (u p : String) :
    (∃ a, (Login deps sb u p).trace.filter Event.isStep <+:
        [.GetUser (deps.ToLower u), .CheckBridgeLogin p, .GetAddressID (deps.ToLower u),
          .newSMTPUser a]) ∧
      ((∃ x, Event.newSMTPUser x ∈ (Login deps sb u p).trace) ↔
        ∃ user a combined, AllStepsSucceed deps sb u p user a combined) ∧
      (∀ s e, (Login deps sb u p).result = .returned (some s, e) →
        ∃ x, Event.newSMTPUser x ∈ (Login deps sb u p).trace) ∧
      (deps.newSMTPUser = newSMTPUser →
        ((∃ s, (Login deps sb u p).result = .returned (some s, none)) ↔
          ∃ user a combined, AllStepsSucceed deps sb u p user a combined)) ∧
      (∀ e, sb.bridge.GetUser (deps.ToLower u) = .ret (.error e) →
        (Login deps sb u p).result = .returned (none, some e) ∧
          (Login deps sb u p).trace.filter Event.isStep = [.GetUser (deps.ToLower u)]) ∧
      (∀ user e, sb.bridge.GetUser (deps.ToLower u) = .ret (.ok user) →
        user.CheckBridgeLogin p = .ret (some e) →
        (Login deps sb u p).result = .returned (none, some e) ∧
          (Login deps sb u p).trace.filter Event.isStep =
            [.GetUser (deps.ToLower u), .CheckBridgeLogin p]) ∧
      (∀ user e, sb.bridge.GetUser (deps.ToLower u) = .ret (.ok user) →
        user.CheckBridgeLogin p = .ret none →
        user.GetAddressID (deps.ToLower u) = .ret (.error e) →
        (Login deps sb u p).result = .returned (none, some e) ∧
          (Login deps sb u p).trace.filter Event.isStep =
            [.GetUser (deps.ToLower u), .CheckBridgeLogin p,
              .GetAddressID (deps.ToLower u)]) := by
  have hreach : (∃ user a combined, AllStepsSucceed deps sb u p user a combined) →
      ∃ x, Event.newSMTPUser x ∈ (Login deps sb u p).trace := by
    rintro ⟨user, a, c, h⟩
    refine ⟨if c then "" else a, ?_⟩
    rw [Login_of_all_steps deps sb u p user a c h]
    cases h5 : deps.newSMTPUser sb.panicHandler sb.eventListener sb user
        (if c then "" else a) with
    | ret r => simp [Login.deferred, Call.toCompletion]
    | panic v =>
      cases hh : sb.panicHandler.HandlePanic v <;> simp [Login.deferred, Call.toCompletion, hh]
  refine ⟨?_, ⟨fun h => Login_session_inv deps sb u p (Or.inl h), hreach⟩,
    fun s e h => hreach (Login_session_inv deps sb u p (Or.inr ⟨s, e, h⟩)), ?_, ?_, ?_, ?_⟩
  · obtain ⟨w, h | h | h | h | h | ⟨a, h⟩⟩ := Login_trace_cases deps sb u p
    · exact ⟨"", by rw [h]; exact ⟨[_, _, _], rfl⟩⟩
    · exact ⟨"", by rw [h]; exact ⟨[_, _], rfl⟩⟩
    · exact ⟨"", by rw [h]; exact ⟨[_, _], rfl⟩⟩
    · exact ⟨"", by rw [h]; exact ⟨[_], rfl⟩⟩
    · exact ⟨"", by rw [h]; exact ⟨[_], rfl⟩⟩
    · exact ⟨a, by rw [h]; exact ⟨[], rfl⟩⟩
  · intro hd
    refine ⟨fun ⟨s, h⟩ => Login_session_inv deps sb u p (Or.inr ⟨s, none, h⟩), ?_⟩
    rintro ⟨user, a, c, h⟩
    rw [Login_of_all_steps deps sb u p user a c h]
    exact ⟨⟨sb.panicHandler, sb.eventListener, sb, user, if c then "" else a⟩,
      by simp [Login.deferred, Call.toCompletion, hd, newSMTPUser]⟩
  · intro e h1
    rw [Login_of_lookup_error deps sb u p e h1]
    exact ⟨rfl, rfl⟩
  · intro user e h1 h2
    rw [Login_of_check_error deps sb u p user e h1 h2]
    exact ⟨rfl, rfl⟩
  · intro user e h1 h2 h3
    rw [Login_of_resolve_error deps sb u p user e h1 h2 h3]
    exact ⟨rfl, rfl⟩

/-- C9, as the code has it: when a collaborator step of `Login` panics with value `v`, the
deferred `HandlePanic` runs exactly once, as the last effect and with that panic in flight, and
no error is returned: if the hook recovers, `Login` returns the zero values `(nil, nil)`; if the
hook does not recover, the panic goes on to the caller; if the hook ends the process, `Login`
does not return.  No later step runs: the effects are exactly the steps up to and including the
panicking one (lookup; lookup, check; lookup, check, resolution; these and the mode query; these
and the session constructor), followed by the hook. -/
theorem Login_panic_reaches_hook (deps : Deps) (sb : smtpBackend) (u p : String)
    (v : PanicValue) (h : StepPanics deps sb u p v) :
    (Login deps sb u p).trace.getLast? = some (.HandlePanic (some v)) ∧
      (Login deps sb u p).trace.countP Event.isHook = 1 ∧
      (∀ s e, (Login deps sb u p).result ≠ .returned (s, some e)) ∧
      (sb.panicHandler.HandlePanic v = .recover →
        (Login deps sb u p).result = .returned (none, none)) ∧
      (sb.panicHandler.HandlePanic v = .propagate →
        (Login deps sb u p).result = .panicked v) ∧
      (∀ code, sb.panicHandler.HandlePanic v = .exit code →
        (Login deps sb u p).result = .exited code) ∧
      (sb.bridge.GetUser (deps.ToLower u) = .panic v →
        (Login deps sb u p).trace = [.GetUser (deps.ToLower u), .HandlePanic (some v)]) ∧
      (∀ user, sb.bridge.GetUser (deps.ToLower u) = .ret (.ok user) →
        user.CheckBridgeLogin p = .panic v →
        (Login deps sb u p).trace =
          [.GetUser (deps.ToLower u), .CheckBridgeLogin p, .HandlePanic (some v)]) ∧
      (∀ user, sb.bridge.GetUser (deps.ToLower u) = .ret (.ok user) →
        user.CheckBridgeLogin p = .ret none →
        user.GetAddressID (deps.ToLower u) = .panic v →
        (Login deps sb u p).trace =
          [.GetUser (deps.ToLower u), .CheckBridgeLogin p, .GetAddressID (deps.ToLower u),
            .HandlePanic (some v)]) ∧
      (∀ user a, sb.bridge.GetUser (deps.ToLower u) = .ret (.ok user) →
        user.CheckBridgeLogin p = .ret none →
        user.GetAddressID (deps.ToLower u) = .ret (.ok a) →
        user.IsCombinedAddressMode = .panic v →
        (Login deps sb u p).trace =
          [.GetUser (deps.ToLower u), .CheckBridgeLogin p, .GetAddressID (deps.ToLower u),
            .IsCombinedAddressMode, .HandlePanic (some v)]) ∧
      (∀ user a combined, AllStepsSucceed deps sb u p user a combined →
        deps.newSMTPUser sb.panicHandler sb.eventListener sb user
          (if combined then "" else a) = .panic v →
        (Login deps sb u p).trace =
          [.GetUser (deps.ToLower u), .CheckBridgeLogin p, .GetAddressID (deps.ToLower u),
            .IsCombinedAddressMode, .newSMTPUser (if combined then "" else a),
            .HandlePanic (some v)]) := by
  have hbasic : (Login deps sb u p).trace.getLast? = some (.HandlePanic (some v)) ∧
      (Login deps sb u p).trace.countP Event.isHook = 1 ∧
      (∀ s e, (Login deps sb u p).result ≠ .returned (s, some e)) ∧
      (sb.panicHandler.HandlePanic v = .recover →
        (Login deps sb u p).result = .returned (none, none)) ∧
      (sb.panicHandler.HandlePanic v = .propagate →
        (Login deps sb u p).result = .panicked v) ∧
      (∀ code, sb.panicHandler.HandlePanic v = .exit code →
        (Login deps sb u p).result = .exited code) := by
    rcases h with h1 | ⟨user, h1, h2 | ⟨h2, h3 | ⟨a, h3, h4 | ⟨c, h4, h5⟩⟩⟩⟩ <;>
      cases hh : sb.panicHandler.HandlePanic v <;>
      simp [Login, Login.body, Login.deferred, Call.toCompletion, Event.isHook, *]
  obtain ⟨b1, b2, b3, b4, b5, b6⟩ := hbasic
  refine ⟨b1, b2, b3, b4, b5, b6, ?_, ?_, ?_, ?_, ?_⟩
  · intro h1
    cases hh : sb.panicHandler.HandlePanic v <;>
      simp [Login, Login.body, Login.deferred, h1, hh]
  · intro user h1 h2
    cases hh : sb.panicHandler.HandlePanic v <;>
      simp [Login, Login.body, Login.deferred, h1, h2, hh]
  · intro user h1 h2 h3
    cases hh : sb.panicHandler.HandlePanic v <;>
      simp [Login, Login.body, Login.deferred, h1, h2, h3, hh]
  · intro user a h1 h2 h3 h4
    cases hh : sb.panicHandler.HandlePanic v <;>
      simp [Login, Login.body, Login.deferred, h1, h2, h3, h4, hh]
  · intro user a c hall h5
    rw [Login_of_all_steps deps sb u p user a c hall]
    cases hh : sb.panicHandler.HandlePanic v <;>
      simp [Login.deferred, Call.toCompletion, h5, hh]

/-- Witness for C9 as amended: the backend whose lookup panics with "boom". -/
theorem Login_panic_reaches_hook_witness :
    (Login sampleDeps faultyBackend "Foo@X" "pw").trace.getLast? =
        some (.HandlePanic (some "boom")) ∧
      (Login sampleDeps faultyBackend "Foo@X" "pw").trace.countP Event.isHook = 1 ∧
      (∀ s e, (Login sampleDeps faultyBackend "Foo@X" "pw").result ≠ .returned (s, some e)) ∧
      (faultyBackend.panicHandler.HandlePanic "boom" = .recover →
        (Login sampleDeps faultyBackend "Foo@X" "pw").result = .returned (none, none)) ∧
      (faultyBackend.panicHandler.HandlePanic "boom" = .propagate →
        (Login sampleDeps faultyBackend "Foo@X" "pw").result = .panicked "boom") ∧
      (∀ code, faultyBackend.panicHandler.HandlePanic "boom" = .exit code →
        (Login sampleDeps faultyBackend "Foo@X" "pw").result = .exited code) ∧
      (Login sampleDeps faultyBackend "Foo@X" "pw").trace =
        [.GetUser (sampleDeps.ToLower "Foo@X"), .HandlePanic (some "boom")] :=
  have h := Login_panic_reaches_hook sampleDeps faultyBackend "Foo@X" "pw" "boom" (Or.inl rfl)
  ⟨h.1, h.2.1, h.2.2.1, h.2.2.2.1, h.2.2.2.2.1, h.2.2.2.2.2.1, h.2.2.2.2.2.2.1 rfl⟩

/-- C9 as stated fails: the account lookup of `faultyBackend` panics, the hook recovers, and
`Login` returns `(nil, nil)`: no session and a nil error, not a non-nil error. -/
theorem Login_recovered_panic_returns_nil_error :
    StepPanics sampleDeps faultyBackend "Foo@X" "pw" "boom" ∧
      (Login sampleDeps faultyBackend "Foo@X" "pw").result = .returned (none, none) ∧
      ¬ ∃ s e, (Login sampleDeps faultyBackend "Foo@X" "pw").result = .returned (s, some e) := by
  refine ⟨Or.inl rfl, rfl, ?_⟩
  rintro ⟨s, e, h⟩
  have h2 : (Login sampleDeps faultyBackend "Foo@X" "pw").result = .returned (none, none) := rfl
  rw [h2] at h
  simp at h

/-! ## The handshake table -/

theorem lookup_filter_self (l : List (String × ChanRef)) (id : String) :
    (l.filter (fun e => e.1 != id)).lookup id = none := by
  simp only [List.lookup_eq_none_iff, List.mem_filter]
  rintro ⟨k, c⟩ ⟨_, h⟩
  have hk : k ≠ id := by simpa using h
  have hk2 : id ≠ k := fun e => hk e.symm
  simpa using hk2

theorem lookup_filter_ne (l : List (String × ChanRef)) (id id2 : String) (hne : id2 ≠ id) :
    (l.filter (fun e => e.1 != id)).lookup id2 = l.lookup id2 := by
  induction l with
  | nil => rfl
  | cons e rest ih =>
    obtain ⟨k, c⟩ := e
    by_cases hk : k = id
    · subst hk
      have h1 : (id2 == k) = false := by simpa using hne
      simp [List.filter_cons, List.lookup_cons, h1, ih]
    · have h2 : (k != id) = true := by simpa using hk
      simp only [List.filter_cons, h2, if_true, List.lookup_cons, ih]

theorem newSMTPBackend_table (ph : panicHandler) (l : Listener) (pr : Preferences)
    (b : bridger) :
    DistinctChannels (newSMTPBackend ph l pr b) ∧ TableInHeap (newSMTPBackend ph l pr b) [] := by
  constructor
  · intro id1 id2 ch h
    simp [newSMTPBackend] at h
  · intro id ch h
    simp [newSMTPBackend] at h

theorem RegisterPending_table (sb : smtpBackend) (chans : List Chan) (id : String)
    (hd : DistinctChannels sb) (hh : TableInHeap sb chans) :
    DistinctChannels (RegisterPending sb chans id).1 ∧
      TableInHeap (RegisterPending sb chans id).1 (RegisterPending sb chans id).2.1 ∧
      Pending (RegisterPending sb chans id).1 (RegisterPending sb chans id).2.1 id
        (RegisterPending sb chans id).2.2 := by
  have key : ∀ k ch, (RegisterPending sb chans id).1.shouldSendNoEncChannels.lookup k = some ch →
      (k = id ∧ ch = chans.length) ∨
        (k ≠ id ∧ sb.shouldSendNoEncChannels.lookup k = some ch) := by
    intro k ch h
    by_cases hk : k = id
    · subst hk
      left
      simp [RegisterPending] at h
      exact ⟨rfl, h.symm⟩
    · right
      have h1 : (k == id) = false := by simpa using hk
      simp only [RegisterPending, List.lookup_cons, h1] at h
      rw [lookup_filter_ne _ _ _ hk] at h
      exact ⟨hk, h⟩
  refine ⟨?_, ?_, ?_⟩
  · intro id1 id2 ch h1 h2
    rcases key id1 ch h1 with ⟨e1, c1⟩ | ⟨n1, l1⟩ <;> rcases key id2 ch h2 with ⟨e2, c2⟩ | ⟨n2, l2⟩
    · rw [e1, e2]
    · have h3 : ch < chans.length := hh id2 ch l2
      rw [c1] at h3
      exact absurd h3 (Nat.lt_irrefl _)
    · have h3 : ch < chans.length := hh id1 ch l1
      rw [c2] at h3
      exact absurd h3 (Nat.lt_irrefl _)
    · exact hd id1 id2 ch l1 l2
  · intro k ch h
    have hlen : (RegisterPending sb chans id).2.1.length = chans.length + 1 := by
      simp [RegisterPending]
    rw [hlen]
    rcases key k ch h with ⟨_, c1⟩ | ⟨_, l1⟩
    · rw [c1]
      exact Nat.lt_succ_self _
    · exact Nat.lt_succ_of_lt (hh k ch l1)
  · refine ⟨by simp [RegisterPending], Chan.make 1, ?_, rfl, rfl, rfl⟩
    simp [RegisterPending]

theorem sample_states_registered :
    RegisterPending (sampleBackend false) [] "m1" = (pendingBackend, pendingChans, 0) ∧
      RegisterPending pendingBackend pendingChans "m2" =
        (twoPendingBackend, twoPendingChans, 1) :=
  ⟨rfl, rfl⟩

theorem deleteEntry_table (sb : smtpBackend) (chans : List Chan) (id : String)
    (hd : DistinctChannels sb) (hh : TableInHeap sb chans) :
    DistinctChannels (deleteEntry sb id) ∧ TableInHeap (deleteEntry sb id) chans := by
  have key : ∀ k ch, (deleteEntry sb id).shouldSendNoEncChannels.lookup k = some ch →
      sb.shouldSendNoEncChannels.lookup k = some ch := by
    intro k ch h
    by_cases hk : k = id
    · subst hk
      simp [deleteEntry, lookup_filter_self] at h
    · simpa only [deleteEntry, lookup_filter_ne _ _ _ hk] using h
  exact ⟨fun id1 id2 ch h1 h2 => hd id1 id2 ch (key _ _ h1) (key _ _ h2),
    fun k ch h => hh k ch (key _ _ h)⟩

theorem ConfirmNoEncryption_table (sb : smtpBackend) (chans : List Chan) (id : String)
    (d : Bool) :
    (ConfirmNoEncryption sb chans id d).sb = sb ∧
      (ConfirmNoEncryption sb chans id d).chans.length = chans.length := by
  unfold ConfirmNoEncryption
  split
  · split
    · exact ⟨rfl, rfl⟩
    · split <;> simp
  · exact ⟨rfl, rfl⟩

theorem lookup_absent (l : List (String × ChanRef)) (id : String)
    (habsent : ∀ ch, (id, ch) ∉ l) : l.lookup id = none := by
  induction l with
  | nil => rfl
  | cons e rest ih =>
    obtain ⟨k, c⟩ := e
    have hk : id ≠ k := by
      intro e
      exact habsent c (by simp [e])
    have h1 : (id == k) = false := by simpa using hk
    simp only [List.lookup_cons, h1]
    exact ih (fun ch hm => habsent ch (List.mem_cons_of_mem _ hm))

theorem ConfirmNoEncryption_of_absent (sb : smtpBackend) (chans : List Chan) (id : String)
    (d : Bool) (h : sb.shouldSendNoEncChannels.lookup id = none) :
    ConfirmNoEncryption sb chans id d = ⟨sb, chans, [], .returned⟩ := by
  simp [ConfirmNoEncryption, h]

theorem send_of_open (c : Chan) (d : Bool) (hopen : c.closed = false) :
    (c.send d = .done { c with recvq := c.recvq - 1, handed := c.handed ++ [d] } ∧ 0 < c.recvq) ∨
      (c.send d = .done { c with buf := c.buf ++ [d] } ∧ c.recvq = 0 ∧ c.buf.length < c.cap) ∨
      (c.send d = .parked { c with sendq := c.sendq ++ [d] } ∧ c.recvq = 0 ∧
        ¬ c.buf.length < c.cap) := by
  unfold Chan.send
  by_cases h1 : 0 < c.recvq
  · left
    simp [hopen, h1]
  · have h0 : c.recvq = 0 := Nat.eq_zero_of_not_pos h1
    by_cases h2 : c.buf.length < c.cap
    · right; left
      simp [hopen, h0, h2]
    · right; right
      simp [hopen, h0, h2]

theorem ConfirmNoEncryption_of_open (sb : smtpBackend) (chans : List Chan) (id : String)
    (ch : ChanRef) (c : Chan) (d : Bool)
    (hl : sb.shouldSendNoEncChannels.lookup id = some ch) (hc : chans[ch]? = some c)
    (hopen : c.closed = false) :
    (ConfirmNoEncryption sb chans id d).sends = [(ch, d)] ∧
      ∃ c1, (ConfirmNoEncryption sb chans id d).chans[ch]? = some c1 ∧ c1.closed = false := by
  have hlt : ch < chans.length := (List.getElem?_eq_some.mp hc).1
  rcases send_of_open c d hopen with ⟨hs, _⟩ | ⟨hs, _⟩ | ⟨hs, _⟩ <;>
    simp [ConfirmNoEncryption, hl, hc, hs, hlt, hopen]

/-- C6: for a message identifier with no entry in the table, `ConfirmNoEncryption` returns
(it neither parks on a channel nor panics), executes no send, and leaves the backend with its
table and every channel as they were. -/
theorem ConfirmNoEncryption_unknown_id_noop (sb : smtpBackend) (chans : List Chan)
    (id : String) (d : Bool) (habsent : ∀ ch, (id, ch) ∉ sb.shouldSendNoEncChannels) :
    (ConfirmNoEncryption sb chans id d).status = .returned ∧
      (ConfirmNoEncryption sb chans id d).sends = [] ∧
      (ConfirmNoEncryption sb chans id d).sb = sb ∧
      (ConfirmNoEncryption sb chans id d).chans = chans := by
  rw [ConfirmNoEncryption_of_absent sb chans id d (lookup_absent _ id habsent)]
  exact ⟨rfl, rfl, rfl, rfl⟩

/-- Witness for C6: message "m2" was never registered. -/
theorem ConfirmNoEncryption_unknown_id_noop_witness :
    (ConfirmNoEncryption pendingBackend pendingChans "m2" true).status = .returned ∧
      (ConfirmNoEncryption pendingBackend pendingChans "m2" true).sends = [] ∧
      (ConfirmNoEncryption pendingBackend pendingChans "m2" true).sb = pendingBackend ∧
      (ConfirmNoEncryption pendingBackend pendingChans "m2" true).chans = pendingChans :=
  ConfirmNoEncryption_unknown_id_noop pendingBackend pendingChans "m2" true
    (by intro ch h; simp [pendingBackend] at h)

/-- C7 as stated fails: with message "m1" pending on its fresh single-slot channel, the first
`ConfirmNoEncryption("m1", true)` returns with `true` in the buffer, and the second call
`ConfirmNoEncryption("m1", false)` finds the entry still in the table, executes a second send on
the same channel and parks there, leaving the channel changed. -/
theorem ConfirmNoEncryption_second_call_sends_again :
    (ConfirmNoEncryption pendingBackend pendingChans "m1" true).status = .returned ∧
      (ConfirmNoEncryption pendingBackend pendingChans "m1" true).chans =
        [⟨1, [true], [], 0, [], false⟩] ∧
      (ConfirmNoEncryption (ConfirmNoEncryption pendingBackend pendingChans "m1" true).sb
        (ConfirmNoEncryption pendingBackend pendingChans "m1" true).chans "m1" false).sends =
        [(0, false)] ∧
      (ConfirmNoEncryption (ConfirmNoEncryption pendingBackend pendingChans "m1" true).sb
        (ConfirmNoEncryption pendingBackend pendingChans "m1" true).chans "m1" false).status =
        .blocked ∧
      (ConfirmNoEncryption (ConfirmNoEncryption pendingBackend pendingChans "m1" true).sb
        (ConfirmNoEncryption pendingBackend pendingChans "m1" true).chans "m1" false).chans ≠
        (ConfirmNoEncryption pendingBackend pendingChans "m1" true).chans := by
  decide

/-- C7, as the code has it: for a pending entry `id` on channel `ch`, the first
`ConfirmNoEncryption(id, d1)` executes exactly one send, of `d1` on `ch`, and leaves the entry
in the table.  A second `ConfirmNoEncryption(id, d2)` is a no-op (it returns, sends nothing and
changes nothing) once the entry has been deleted from the table in between; while the entry is
still there the second call executes a send of `d2` on the same channel `ch`. -/
theorem ConfirmNoEncryption_twice (sb : smtpBackend) (chans : List Chan) (id : String)
    (ch : ChanRef) (d1 d2 : Bool) (hp : Pending sb chans id ch) :
    (ConfirmNoEncryption sb chans id d1).sends = [(ch, d1)] ∧
      (ConfirmNoEncryption sb chans id d1).sb = sb ∧
      ConfirmNoEncryption (deleteEntry (ConfirmNoEncryption sb chans id d1).sb id)
          (ConfirmNoEncryption sb chans id d1).chans id d2 =
        ⟨deleteEntry sb id, (ConfirmNoEncryption sb chans id d1).chans, [], .returned⟩ ∧
      (ConfirmNoEncryption (ConfirmNoEncryption sb chans id d1).sb
        (ConfirmNoEncryption sb chans id d1).chans id d2).sends = [(ch, d2)] ∧
      (ConfirmNoEncryption (ConfirmNoEncryption sb chans id d1).sb
        (ConfirmNoEncryption sb chans id d1).chans id d2).sb = sb := by
  obtain ⟨hl, c, hc, hopen, hbuf, hq⟩ := hp
  have hsb : (ConfirmNoEncryption sb chans id d1).sb = sb :=
    (ConfirmNoEncryption_table sb chans id d1).1
  have hdel : (deleteEntry sb id).shouldSendNoEncChannels.lookup id = none :=
    lookup_filter_self _ id
  obtain ⟨hsends, c1, hc1, hopen1⟩ := ConfirmNoEncryption_of_open sb chans id ch c d1 hl hc hopen
  refine ⟨hsends, hsb, ?_, ?_, ?_⟩
  · rw [hsb]
    exact ConfirmNoEncryption_of_absent _ _ id d2 hdel
  · rw [hsb]
    exact (ConfirmNoEncryption_of_open sb _ id ch c1 d2 hl hc1 hopen1).1
  · exact (ConfirmNoEncryption_table _ _ id d2).1.trans hsb

/-- Witness for C7 as amended: message "m1" pending on channel 0. -/
theorem ConfirmNoEncryption_twice_witness :
    (ConfirmNoEncryption pendingBackend pendingChans "m1" true).sends = [(0, true)] ∧
      (ConfirmNoEncryption pendingBackend pendingChans "m1" true).sb = pendingBackend ∧
      ConfirmNoEncryption
          (deleteEntry (ConfirmNoEncryption pendingBackend pendingChans "m1" true).sb "m1")
          (ConfirmNoEncryption pendingBackend pendingChans "m1" true).chans "m1" false =
        ⟨deleteEntry pendingBackend "m1",
          (ConfirmNoEncryption pendingBackend pendingChans "m1" true).chans, [], .returned⟩ ∧
      (ConfirmNoEncryption (ConfirmNoEncryption pendingBackend pendingChans "m1" true).sb
        (ConfirmNoEncryption pendingBackend pendingChans "m1" true).chans "m1" false).sends =
        [(0, false)] ∧
      (ConfirmNoEncryption (ConfirmNoEncryption pendingBackend pendingChans "m1" true).sb
        (ConfirmNoEncryption pendingBackend pendingChans "m1" true).chans "m1" false).sb =
        pendingBackend :=
  ConfirmNoEncryption_twice pendingBackend pendingChans "m1" 0 true false
    ⟨by decide, Chan.make 1, by decide, rfl, rfl, rfl⟩

/-- C8 as stated fails for a registered identifier whose entry is no longer pending.  With
"m1" registered on channel 0 and the decision `true` already sent on it (`decidedChans`, the
state after one `ConfirmNoEncryption("m1", true)`), `ConfirmNoEncryption("m1", false)` sends
`false` on channel 0 and parks, and the next receive from channel 0 yields `true`, not `false`.
It also fails for a table that stores one channel under two identifiers: with channel 0 under
both "m1" and "m2", `ConfirmNoEncryption("m1", true)` sends on the channel stored under "m2"
and changes it. -/
theorem ConfirmNoEncryption_stale_decision_received_first :
    pendingBackend.shouldSendNoEncChannels.lookup "m1" = some 0 ∧
      (ConfirmNoEncryption pendingBackend pendingChans "m1" true).chans = decidedChans ∧
      (ConfirmNoEncryption pendingBackend decidedChans "m1" false).sends = [(0, false)] ∧
      (ConfirmNoEncryption pendingBackend decidedChans "m1" false).status = .blocked ∧
      ((ConfirmNoEncryption pendingBackend decidedChans "m1" false).chans[0]?).map
          (fun c => c.recv.1) = some (some true) ∧
      aliasedBackend.shouldSendNoEncChannels.lookup "m1" = some 0 ∧
      aliasedBackend.shouldSendNoEncChannels.lookup "m2" = some 0 ∧
      (ConfirmNoEncryption aliasedBackend pendingChans "m1" true).sends = [(0, true)] ∧
      (ConfirmNoEncryption aliasedBackend pendingChans "m1" true).chans[0]? ≠
        pendingChans[0]? := by
  decide

/-- C8, as the code has it: for a table in which distinct identifiers hold distinct channels
and an identifier `id` pending on channel `ch` (registered, the channel open and no decision
sent on it yet), `ConfirmNoEncryption(id, d)` executes exactly one send, of the value `d` on
`ch`; the waiter on `ch` obtains `d` (a parked receiver is handed `d`, and otherwise the next
receive from `ch` yields `d`); the channel stored under any other identifier is a different
channel, nothing is sent on it and its state is unchanged; the table is unchanged. -/
theorem ConfirmNoEncryption_delivers_to_own_channel (sb : smtpBackend) (chans : List Chan)
    (id : String) (ch : ChanRef) (d : Bool) (hdistinct : DistinctChannels sb)
    (hp : Pending sb chans id ch) :
    (ConfirmNoEncryption sb chans id d).sends = [(ch, d)] ∧
      (ConfirmNoEncryption sb chans id d).sb = sb ∧
      (∃ c c1, chans[ch]? = some c ∧ (ConfirmNoEncryption sb chans id d).chans[ch]? = some c1 ∧
        (0 < c.recvq → c1.handed = c.handed ++ [d]) ∧
        (c.recvq = 0 → c1.recv.1 = some d)) ∧
      (∀ id2 ch2, id2 ≠ id → sb.shouldSendNoEncChannels.lookup id2 = some ch2 →
        ch2 ≠ ch ∧ (∀ v, (ch2, v) ∉ (ConfirmNoEncryption sb chans id d).sends) ∧
          (ConfirmNoEncryption sb chans id d).chans[ch2]? = chans[ch2]?) := by
  obtain ⟨hl, c, hc, hopen, hbuf, hq⟩ := hp
  have hlt : ch < chans.length := (List.getElem?_eq_some.mp hc).1
  have hne : ∀ id2 ch2, id2 ≠ id → sb.shouldSendNoEncChannels.lookup id2 = some ch2 →
      ch2 ≠ ch := by
    intro id2 ch2 hid h2 e
    rw [e] at h2
    exact hid (hdistinct id2 id ch h2 hl)
  rcases send_of_open c d hopen with ⟨hs, hr⟩ | ⟨hs, hr, hcap⟩ | ⟨hs, hr, hcap⟩
  · refine ⟨by simp [ConfirmNoEncryption, hl, hc, hs], by simp [ConfirmNoEncryption, hl, hc, hs],
      ⟨c, _, hc, by simp [ConfirmNoEncryption, hl, hc, hs, hlt]; rfl, fun _ => rfl,
        fun h0 => absurd h0 (Nat.pos_iff_ne_zero.mp hr)⟩, ?_⟩
    intro id2 ch2 hid h2
    have hn := hne id2 ch2 hid h2
    refine ⟨hn, by simp [ConfirmNoEncryption, hl, hc, hs, hn], ?_⟩
    simp [ConfirmNoEncryption, hl, hc, hs, List.getElem?_set_ne (Ne.symm hn)]
  · refine ⟨by simp [ConfirmNoEncryption, hl, hc, hs], by simp [ConfirmNoEncryption, hl, hc, hs],
      ⟨c, _, hc, by simp [ConfirmNoEncryption, hl, hc, hs, hlt]; rfl,
        fun h0 => absurd hr (Nat.pos_iff_ne_zero.mp h0), fun _ => by simp [Chan.recv, hbuf, hq]⟩,
      ?_⟩
    intro id2 ch2 hid h2
    have hn := hne id2 ch2 hid h2
    refine ⟨hn, by simp [ConfirmNoEncryption, hl, hc, hs, hn], ?_⟩
    simp [ConfirmNoEncryption, hl, hc, hs, List.getElem?_set_ne (Ne.symm hn)]
  · refine ⟨by simp [ConfirmNoEncryption, hl, hc, hs], by simp [ConfirmNoEncryption, hl, hc, hs],
      ⟨c, _, hc, by simp [ConfirmNoEncryption, hl, hc, hs, hlt]; rfl,
        fun h0 => absurd hr (Nat.pos_iff_ne_zero.mp h0), fun _ => by simp [Chan.recv, hbuf, hq]⟩,
      ?_⟩
    intro id2 ch2 hid h2
    have hn := hne id2 ch2 hid h2
    refine ⟨hn, by simp [ConfirmNoEncryption, hl, hc, hs, hn], ?_⟩
    simp [ConfirmNoEncryption, hl, hc, hs, List.getElem?_set_ne (Ne.symm hn)]

/-- Witness for C8: messages "m1" and "m2" pending on channels 0 and 1; the decision for "m2"
goes to channel 1. -/
theorem ConfirmNoEncryption_delivers_to_own_channel_witness :
    (ConfirmNoEncryption twoPendingBackend twoPendingChans "m2" true).sends = [(1, true)] ∧
      (ConfirmNoEncryption twoPendingBackend twoPendingChans "m2" true).sb = twoPendingBackend ∧
      (∃ c c1, twoPendingChans[1]? = some c ∧
        (ConfirmNoEncryption twoPendingBackend twoPendingChans "m2" true).chans[1]? = some c1 ∧
        (0 < c.recvq → c1.handed = c.handed ++ [true]) ∧
        (c.recvq = 0 → c1.recv.1 = some true)) ∧
      (∀ id2 ch2, id2 ≠ "m2" → twoPendingBackend.shouldSendNoEncChannels.lookup id2 = some ch2 →
        ch2 ≠ 1 ∧
          (∀ v, (ch2, v) ∉ (ConfirmNoEncryption twoPendingBackend twoPendingChans "m2" true).sends) ∧
          (ConfirmNoEncryption twoPendingBackend twoPendingChans "m2" true).chans[ch2]? =
            twoPendingChans[ch2]?) :=
  ConfirmNoEncryption_delivers_to_own_channel twoPendingBackend twoPendingChans "m2" 1 true
    (RegisterPending_table pendingBackend pendingChans "m2"
      (RegisterPending_table (sampleBackend false) [] "m1"
        (newSMTPBackend_table _ _ _ _).1 (newSMTPBackend_table _ _ _ _).2).1
      (RegisterPending_table (sampleBackend false) [] "m1"
        (newSMTPBackend_table _ _ _ _).1 (newSMTPBackend_table _ _ _ _).2).2.1).1
    ⟨by decide, Chan.make 1, by decide, rfl, rfl, rfl⟩

end smtp
